import Mathlib

/-!
A verification development for the happy-hour venue search engine
(`src/hooks/useSearch.ts`).  The engine's pure logic — time-string parsing,
temporal predicates, keyword classification, filtering, sorting, and the
try/fallback control flow of `performSearch` — is embedded as executable
Lean definitions.  The external full-text index (Orama) is abstracted as an
oracle function returning either a list of hits or an error; the wall clock
minute and the weekday name are passed explicitly (the source reads them
from `Date` via `getCurrentTimeMinutes` / `getCurrentDay`).
-/

/-- A venue record.  The field set follows the index schema (lines 21–31)
together with the field accesses throughout `useSearch.ts` (`startTime`,
`endTime`, `rating`, `id`); the bundled `data/venues.ts` is not among the
embedded sources.  `rating` is modelled as a rational: the source's
floating-point ratings are only ever compared, and comparisons of finite
decimal literals agree with the rational comparisons. -/
structure Venue where
  id : String
  name : String
  neighborhood : String
  cuisine : String
  address : String
  dealText : String
  drinks : List String
  food : List String
  days : List String
  startTime : String
  endTime : String
  priceLevel : Nat
  rating : Rat
deriving DecidableEq

/-- The `timeFilter` field of `Filters` in `useSearch.ts`. -/
inductive TimeFilter where
  | all
  | now
  | soon
  | today
deriving DecidableEq

/-- The `dealType` field of `Filters` in `useSearch.ts`. -/
inductive DealType where
  | all
  | drinks
  | food
deriving DecidableEq

/-- The `Filters` interface of `useSearch.ts`.  `string | null` and
`number | null` fields become `Option`; JavaScript truthiness tests on them
are modelled by `optStrTruthy` / `optNatTruthy` below. -/
structure Filters where
  neighborhood : Option String
  cuisine : Option String
  day : Option String
  maxPrice : Option Nat
  timeFilter : TimeFilter
  dealType : DealType
deriving DecidableEq

/-- JavaScript truthiness of a `string | null` value: `null` and the empty
string are falsy. -/
def optStrTruthy : Option String → Bool
  | none => false
  | some s => s != ""

/-- JavaScript truthiness of a `number | null` value: `null` and `0` are
falsy. -/
def optNatTruthy : Option Nat → Bool
  | none => false
  | some n => n != 0

/-- Value of a non-empty digit run, as `parseInt(·, 10)` computes it. -/
def digitsVal (ds : List Char) : Nat :=
  ds.foldl (fun n c => n * 10 + (c.toNat - 48)) 0

/-- Whitespace characters for the `\s*` part of the time regex.  The common
ASCII whitespace characters suffice for the venue data's `"h:mm AM"` shape. -/
def isSpaceChar (c : Char) : Bool :=
  c == ' ' || c == '\t' || c == '\n' || c == '\r'

/-- Attempt to match the regex `(\d+):(\d+)\s*(AM|PM)` (case-insensitive)
anchored at the head of `cs`, returning the two captured numbers and whether
the suffix was `PM`.  The greedy `\d+` runs are deterministic here: a
shorter digit run would still be followed by a digit, never by `:`, and no
whitespace character can begin `AM`/`PM`, so no backtracking alternative can
succeed. -/
def matchAt (cs : List Char) : Option (Nat × Nat × Bool) :=
  let ds1 := cs.takeWhile Char.isDigit
  if ds1.isEmpty then none
  else
    match cs.drop ds1.length with
    | ':' :: rest =>
      let ds2 := rest.takeWhile Char.isDigit
      if ds2.isEmpty then none
      else
        match (rest.drop ds2.length).dropWhile isSpaceChar with
        | a :: b :: _ =>
          if (a == 'A' || a == 'a' || a == 'P' || a == 'p') && (b == 'M' || b == 'm') then
            some (digitsVal ds1, digitsVal ds2, a == 'P' || a == 'p')
          else none
        | _ => none
    | _ => none

/-- First match of the time regex anywhere in the character list, as
`String.prototype.match` finds it (leftmost starting position). -/
def findMatch : List Char → Option (Nat × Nat × Bool)
  | [] => none
  | c :: cs =>
    match matchAt (c :: cs) with
    | some r => some r
    | none => findMatch cs

/-- The 12-hour to 24-hour conversion of `parseTimeToMinutes`, mirroring the
two sequential `if` statements of the source (lines 42–43). -/
def to24Hours (h : Nat) (isPM : Bool) : Nat :=
  let h1 := if isPM && h != 12 then h + 12 else h
  if !isPM && h1 == 12 then 0 else h1

/-- `parseTimeToMinutes` (lines 34–46): parse a time string like
`"3:00 PM"` to minutes since midnight; a string with no regex match parses
to `0`. -/
def parseTimeToMinutes (s : String) : Nat :=
  match findMatch s.data with
  | none => 0
  | some (h, m, isPM) => to24Hours h isPM * 60 + m

/-- `isHappeningNow` (lines 61–70), with the current weekday name and the
current minute passed explicitly. -/
def isHappeningNow (today : String) (now : Nat) (v : Venue) : Bool :=
  if !(v.days.contains today) then false
  else
    decide (parseTimeToMinutes v.startTime ≤ now) &&
      decide (now ≤ parseTimeToMinutes v.endTime)

/-- `isStartingSoon` (lines 73–82): starts within the next two hours and has
not started yet. -/
def isStartingSoon (today : String) (now : Nat) (v : Venue) : Bool :=
  if !(v.days.contains today) then false
  else
    decide (now < parseTimeToMinutes v.startTime) &&
      decide (parseTimeToMinutes v.startTime ≤ now + 120)

/-- `isHappeningToday` (lines 85–88). -/
def isHappeningToday (today : String) (v : Venue) : Bool :=
  v.days.contains today

/-- Whether `pat` is an initial segment of `cs`. -/
def ledBy : List Char → List Char → Bool
  | [], _ => true
  | _ :: _, [] => false
  | a :: as, b :: bs => a == b && ledBy as bs

/-- Substring containment, as `String.prototype.includes` decides it:
`hasSub pat text` is true iff `pat` occurs contiguously in `text`. -/
def hasSub (pat : List Char) : List Char → Bool
  | [] => pat.isEmpty
  | c :: cs => ledBy pat (c :: cs) || hasSub pat cs

/-- Case-folded character list of a string, modelling
`String.prototype.toLowerCase` on the ASCII texts involved. -/
def lcs (s : String) : List Char :=
  s.data.map Char.toLower

/-- The drink keyword list of `hasDrinkSpecials` (line 92). -/
def drinkKeywords : List String :=
  ["beer", "wine", "cocktail", "margarita", "sake", "whiskey", "wells", "pint",
   "draft", "shot", "mezcal", "tequila"]

/-- The food keyword list of `hasFoodSpecials` (line 99). -/
def foodKeywords : List String :=
  ["taco", "app", "food", "pizza", "wing", "nacho", "oyster", "burger",
   "fries", "snack", "bao", "sausage", "pretzel"]

/-- `hasDrinkSpecials` (lines 91–95): a drink keyword occurs in the
case-folded deal text, or the `drinks` list is non-empty. -/
def hasDrinkSpecials (v : Venue) : Bool :=
  drinkKeywords.any (fun kw => hasSub kw.data (lcs v.dealText)) ||
    decide (0 < v.drinks.length)

/-- `hasFoodSpecials` (lines 98–102): a food keyword occurs in the
case-folded deal text, or the `food` list is non-empty. -/
def hasFoodSpecials (v : Venue) : Bool :=
  foodKeywords.any (fun kw => hasSub kw.data (lcs v.dealText)) ||
    decide (0 < v.food.length)

/-- The `where` clause `performSearch` builds for the index (lines 155–164):
an equality constraint on neighborhood and cuisine and a `lte` constraint on
`priceLevel`, each present only when the corresponding filter is truthy. -/
structure WhereClause where
  neighborhood : Option String
  cuisine : Option String
  priceLevelLte : Option Nat
deriving DecidableEq

/-- A hit returned by the index: the stored document snapshot plus the
index's own hit identifier (`hit.document` and `hit.id`). -/
structure Hit where
  doc : Venue
  hitId : String
deriving DecidableEq

/-- The identifier the engine reads off a hit:
`hit.document.id || hit.id` (line 178), with string truthiness. -/
def hitKey (h : Hit) : String :=
  if h.doc.id != "" then h.doc.id else h.hitId

/-- Resolution of a hit to a full venue record (line 179):
`venues.find(v => v.id === id) || hit.document`. -/
def resolveHit (store : List Venue) (h : Hit) : Venue :=
  match store.find? (fun v => v.id == hitKey h) with
  | some v => v
  | none => h.doc

/-- `buildWhere` mirrors lines 155–164: each constraint is added only when
the filter value is truthy in the JavaScript sense. -/
def buildWhere (f : Filters) : WhereClause :=
  ⟨if optStrTruthy f.neighborhood then f.neighborhood else none,
   if optStrTruthy f.cuisine then f.cuisine else none,
   if optNatTruthy f.maxPrice then f.maxPrice else none⟩

/-- The `hasFilters` guard (lines 144–145). -/
def hasFilters (f : Filters) : Bool :=
  optStrTruthy f.neighborhood || optStrTruthy f.cuisine || optStrTruthy f.day ||
    optNatTruthy f.maxPrice || decide (f.timeFilter ≠ TimeFilter.all) ||
    decide (f.dealType ≠ DealType.all)

/-- The neighborhood filter step (`v.neighborhood === filters.neighborhood`,
guarded by truthiness; lines 185–187 / 241–243). -/
def filterByNeighborhood (f : Filters) (l : List Venue) : List Venue :=
  match f.neighborhood with
  | none => l
  | some nb => if nb == "" then l else l.filter (fun v => v.neighborhood == nb)

/-- The cuisine filter step (lines 188–190 / 244–246). -/
def filterByCuisine (f : Filters) (l : List Venue) : List Venue :=
  match f.cuisine with
  | none => l
  | some cz => if cz == "" then l else l.filter (fun v => v.cuisine == cz)

/-- The day filter step (`v.days.includes(filters.day)`, lines 197–199 /
247–249). -/
def filterByDay (f : Filters) (l : List Venue) : List Venue :=
  match f.day with
  | none => l
  | some d => if d == "" then l else l.filter (fun v => v.days.contains d)

/-- The price ceiling filter step (`v.priceLevel <= filters.maxPrice`,
guarded by truthiness, so a ceiling of `0` applies no filter; lines 191–193
/ 250–252). -/
def filterByMaxPrice (f : Filters) (l : List Venue) : List Venue :=
  match f.maxPrice with
  | none => l
  | some p => if p == 0 then l else l.filter (fun v => decide (v.priceLevel ≤ p))

/-- The time filter step (lines 202–208 / 253–259). -/
def filterByTime (today : String) (now : Nat) (f : Filters) (l : List Venue) : List Venue :=
  match f.timeFilter with
  | TimeFilter.now => l.filter (isHappeningNow today now)
  | TimeFilter.soon => l.filter (isStartingSoon today now)
  | TimeFilter.today => l.filter (isHappeningToday today)
  | TimeFilter.all => l

/-- The deal type filter step (lines 211–215 / 260–264). -/
def filterByDeal (f : Filters) (l : List Venue) : List Venue :=
  match f.dealType with
  | DealType.drinks => l.filter hasDrinkSpecials
  | DealType.food => l.filter hasFoodSpecials
  | DealType.all => l

/-- The comparator of the sort on lines 218–223, read as a `≤` relation:
`a` may precede `b` iff `compare(a, b) ≤ 0`, i.e. a happening-now venue
precedes one that is not, and within equal happening-now status the higher
rating precedes. -/
def sortLeB (today : String) (now : Nat) (a b : Venue) : Bool :=
  let aNow : Nat := if isHappeningNow today now a then 1 else 0
  let bNow : Nat := if isHappeningNow today now b then 1 else 0
  if aNow != bNow then decide (bNow < aNow) else decide (b.rating ≤ a.rating)

/-- The sort of lines 218–223.  `Array.prototype.sort` is a stable sort
(ECMAScript 2019), and a stable sort with respect to a total transitive
comparator has a unique result, so the stable `List.insertionSort` over the
comparator's `≤` relation is an exact model. -/
def sortVenues (today : String) (now : Nat) (l : List Venue) : List Venue :=
  List.insertionSort (fun a b => sortLeB today now a b = true) l

/-- The filter-only scan of lines 183–193 (blank query with at least one
filter set): start from the full store and apply the structured filters. -/
def structuredScan (f : Filters) (store : List Venue) : List Venue :=
  filterByMaxPrice f (filterByCuisine f (filterByNeighborhood f store))

/-- The shared post-filtering of lines 197–215: day, then time, then deal
type. -/
def postFilters (today : String) (now : Nat) (f : Filters) (l : List Venue) : List Venue :=
  filterByDeal f (filterByTime today now f (filterByDay f l))

/-- `String.prototype.trim`: strip leading and trailing whitespace.  Written
over the character list so that it evaluates inside the kernel. -/
def jsTrim (s : String) : String :=
  String.mk (((s.data.dropWhile isSpaceChar).reverse.dropWhile isSpaceChar).reverse)

/-- The text-matching predicate of the fallback scan (lines 233–238):
case-insensitive substring match of the (untrimmed) query against name,
deal text and neighborhood. -/
def textMatch (q : String) (v : Venue) : Bool :=
  hasSub (lcs q) (lcs v.name) || hasSub (lcs q) (lcs v.dealText) ||
    hasSub (lcs q) (lcs v.neighborhood)

/-- The body of the `try` block of `performSearch` (lines 153–226): if the
trimmed query is non-blank, ask the index (abstracted as the oracle `idx`)
and resolve its hits; otherwise run the filter-only scan; then post-filter
and sort.  An oracle error is propagated to the `catch` site. -/
def tryPath {ε : Type} (store : List Venue) (idx : String → WhereClause → Except ε (List Hit))
    (today : String) (now : Nat) (q : String) (f : Filters) : Except ε (List Venue) :=
  if jsTrim q != "" then
    match idx (jsTrim q) (buildWhere f) with
    | Except.error e => Except.error e
    | Except.ok hits =>
      Except.ok (sortVenues today now (postFilters today now f (hits.map (resolveHit store))))
  else
    Except.ok (sortVenues today now (postFilters today now f (structuredScan f store)))

/-- The `catch` block of `performSearch` (lines 227–268): an index-free
linear scan applying the substring text match and then every filter, with
no sort.  The filter order of the source (neighborhood, cuisine, day,
maxPrice, time, deal type) is kept. -/
def fallbackPath (store : List Venue) (today : String) (now : Nat) (q : String) (f : Filters) :
    List Venue :=
  let l0 := if jsTrim q != "" then store.filter (textMatch q) else store
  filterByDeal f (filterByTime today now f (filterByMaxPrice f (filterByDay f
    (filterByCuisine f (filterByNeighborhood f l0)))))

/-- `performSearch` (lines 134–269): before the index is ready the full
store is returned; a blank query with all filters at default returns the
full store; otherwise the try path runs and any error from it is caught and
answered by the fallback scan. -/
def performSearch {ε : Type} (store : List Venue)
    (idx : String → WhereClause → Except ε (List Hit)) (ready : Bool)
    (today : String) (now : Nat) (q : String) (f : Filters) : List Venue :=
  if !ready then store
  else if jsTrim q == "" && !hasFilters f then store
  else
    match tryPath store idx today now q f with
    | Except.ok l => l
    | Except.error _ => fallbackPath store today now q f

/-- The default filter state (`initialFilters` in `App.tsx`). -/
def initialFilters : Filters :=
  ⟨none, none, none, none, TimeFilter.all, DealType.all⟩

/-- Replace only the `maxPrice` field of a filter state. -/
def withMaxPrice (f : Filters) (mp : Option Nat) : Filters :=
  ⟨f.neighborhood, f.cuisine, f.day, mp, f.timeFilter, f.dealType⟩

example : parseTimeToMinutes "12:00 AM" = 0 := by decide
example : parseTimeToMinutes "12:00 PM" = 720 := by decide
example : parseTimeToMinutes "3:05 pm" = 905 := by decide
example : parseTimeToMinutes "garbage" = 0 := by decide
example : parseTimeToMinutes "x3:07 AM" = 187 := by decide
example : hasSub "app".data (lcs "Happy Hour!") = true := by decide

/-- Decidable equality for `Except`, used to evaluate concrete runs of
`tryPath`. -/
instance exceptDecEq {ε α : Type} [DecidableEq ε] [DecidableEq α] : DecidableEq (Except ε α) :=
  fun a b =>
    match a, b with
    | Except.ok x, Except.ok y =>
      if h : x = y then isTrue (by rw [h]) else isFalse (by intro hc; cases hc; exact h rfl)
    | Except.error x, Except.error y =>
      if h : x = y then isTrue (by rw [h]) else isFalse (by intro hc; cases hc; exact h rfl)
    | Except.ok _, Except.error _ => isFalse (by intro hc; cases hc)
    | Except.error _, Except.ok _ => isFalse (by intro hc; cases hc)

/-- The rational 4.0, given in lowest terms so that it evaluates inside the
kernel. -/
def rat40 : Rat := ⟨4, 1, by decide, by decide⟩

/-- The rational 4.5 in lowest terms. -/
def rat45 : Rat := ⟨9, 2, by decide, by decide⟩

/-- The rational 4.9 in lowest terms. -/
def rat49 : Rat := ⟨49, 10, by decide, by decide⟩

/-- Concrete venue: lower rating, listed first in the example store. -/
def vLo : Venue :=
  ⟨"v1", "Alpha Bar", "Downtown", "Bar", "1 Main St", "two dollar wells all night",
   [], [], ["Monday"], "1:00 PM", "2:00 PM", 2, rat40⟩

/-- Concrete venue: higher rating, listed second in the example store. -/
def vHi : Venue :=
  ⟨"v2", "Beta Bar", "Downtown", "Bar", "2 Main St", "half price pours",
   [], [], ["Monday"], "1:00 PM", "2:00 PM", 2, rat45⟩

/-- Filter state with only the day filter set. -/
def dayOnlyFilters : Filters :=
  ⟨none, none, some "Monday", none, TimeFilter.all, DealType.all⟩

/-- An index oracle that always fails, as in an index outage. -/
def failingIdx : String → WhereClause → Except Unit (List Hit) :=
  fun _ _ => Except.error ()

/-- An index oracle that always answers with no hits. -/
def emptyIdx : String → WhereClause → Except Unit (List Hit) :=
  fun _ _ => Except.ok []

example : tryPath [vLo, vHi] emptyIdx "Sunday" 0 "" dayOnlyFilters = Except.ok [vHi, vLo] := by decide
example : fallbackPath [vLo, vHi] "Sunday" 0 "" dayOnlyFilters = [vLo, vHi] := by decide
example : performSearch [vLo, vHi] failingIdx true "Sunday" 0 "" dayOnlyFilters = [vHi, vLo] := by decide
example : performSearch [vLo, vHi] failingIdx true "Sunday" 0 "" initialFilters = [vLo, vHi] := by decide

/-- Concrete venue whose deal text contains "app" only inside "Happy", with
an empty food list. -/
def vHappy : Venue :=
  ⟨"v3", "Gamma Bar", "East Side", "Bar", "3 Main St", "Happy hour pricing",
   [], [], ["Monday"], "3:00 PM", "6:00 PM", 1, rat40⟩

/-- Concrete venue whose identifier is absent from the example stores. -/
def ghostVenue : Venue :=
  ⟨"ghost", "Ghost Bar", "Nowhere", "Bar", "9 Void St", "phantom pours",
   [], [], [], "1:00 PM", "2:00 PM", 1, rat40⟩

/-- A hit carrying the ghost venue's snapshot. -/
def exHit : Hit := ⟨ghostVenue, "h1"⟩

/-- An index oracle that always answers with the ghost hit. -/
def ghostIdx : String → WhereClause → Except Unit (List Hit) :=
  fun _ _ => Except.ok [⟨ghostVenue, "h1"⟩]

/-- C5: for every venue and every current time, `isHappeningNow` implies
`isHappeningToday`, and `isStartingSoon` implies `isHappeningToday`. -/
theorem happening_implies_today (today : String) (now : Nat) (v : Venue) :
    (isHappeningNow today now v = true → isHappeningToday today v = true) ∧
    (isStartingSoon today now v = true → isHappeningToday today v = true) := by
  unfold isHappeningNow isStartingSoon isHappeningToday
  cases hc : v.days.contains today <;> simp [hc]

theorem happening_implies_today_witness :
    isHappeningToday "Monday" vHappy = true ∧ isHappeningToday "Monday" vHappy = true :=
  ⟨(happening_implies_today "Monday" 1000 vHappy).1 (by decide),
   (happening_implies_today "Monday" 800 vHappy).2 (by decide)⟩

/-- C6: for every venue and every current time, `isHappeningNow` and
`isStartingSoon` are never both true: being in progress requires
`start ≤ now` while not having started requires `now < start`. -/
theorem now_soon_mutually_exclusive (today : String) (now : Nat) (v : Venue) :
    (isHappeningNow today now v && isStartingSoon today now v) = false := by
  by_cases hs : parseTimeToMinutes v.startTime ≤ now
  · have h2 : isStartingSoon today now v = false := by
      unfold isStartingSoon
      cases hc : v.days.contains today <;> simp [hc]
      omega
    simp [h2]
  · have h1 : isHappeningNow today now v = false := by
      unfold isHappeningNow
      cases hc : v.days.contains today <;> simp [hc]
      omega
    simp [h1]

/-- C7: time parsing converts a matched `h:mm AM/PM` group to minutes since
midnight via 12-hour to 24-hour conversion (12 AM to hour 0, 12 PM to hour
12, PM adding 12 hours except when the hour is 12), and a string with no
regex match parses to minute 0 rather than failing. -/
theorem parseTime_conversion :
    (∀ s, findMatch s.data = none → parseTimeToMinutes s = 0) ∧
    (∀ s h m pm, findMatch s.data = some (h, m, pm) →
      parseTimeToMinutes s = to24Hours h pm * 60 + m) ∧
    (∀ h pm, to24Hours h pm =
      if pm then (if h = 12 then 12 else h + 12) else (if h = 12 then 0 else h)) ∧
    parseTimeToMinutes "12:00 AM" = 0 ∧ parseTimeToMinutes "12:00 PM" = 720 ∧
    parseTimeToMinutes "not a time" = 0 := by
  refine ⟨?_, ?_, ?_, by decide, by decide, by decide⟩
  · intro s hs
    unfold parseTimeToMinutes
    rw [hs]
  · intro s h m pm hs
    unfold parseTimeToMinutes
    rw [hs]
  · intro h pm
    unfold to24Hours
    cases pm <;> by_cases h12 : h = 12 <;> simp [h12]

theorem parseTime_conversion_witness :
    parseTimeToMinutes "5:15 pm" = to24Hours 5 true * 60 + 15 ∧
    parseTimeToMinutes "around noon" = 0 :=
  ⟨parseTime_conversion.2.1 "5:15 pm" 5 15 true (by decide),
   parseTime_conversion.1 "around noon" (by decide)⟩

/-- C9: any venue whose case-folded deal text contains the letters "app" —
also inside an unrelated word such as "happy" — is classified as having
food specials, independently of its `food` list. -/
theorem app_substring_food_specials (v : Venue)
    (h : hasSub "app".data (lcs v.dealText) = true) :
    hasFoodSpecials v = true := by
  unfold hasFoodSpecials
  have hmem : foodKeywords.any (fun kw => hasSub kw.data (lcs v.dealText)) = true :=
    List.any_eq_true.mpr ⟨"app", by decide, h⟩
  simp [hmem]

theorem app_substring_food_specials_witness :
    vHappy.food = [] ∧ hasFoodSpecials vHappy = true :=
  ⟨rfl, app_substring_food_specials vHappy (by decide)⟩

/-- C8: a hit whose identifier is not found in the store is resolved to the
index's own document snapshot (never dropped: resolution is a total map),
and on a concrete run the engine returns such a snapshot in its results. -/
theorem drift_uses_snapshot :
    (∀ (store : List Venue) (h : Hit),
      store.find? (fun v => v.id == hitKey h) = none → resolveHit store h = h.doc) ∧
    (∀ (store : List Venue) (hits : List Hit),
      (hits.map (resolveHit store)).length = hits.length) ∧
    performSearch [vLo] ghostIdx true "Sunday" 0 "ghost" initialFilters = [ghostVenue] := by
  refine ⟨?_, ?_, by decide⟩
  · intro store h hf
    unfold resolveHit
    rw [hf]
  · intro store hits
    simp

theorem drift_uses_snapshot_witness : resolveHit [vLo] exHit = exHit.doc :=
  drift_uses_snapshot.1 [vLo] exHit (by decide)

/-- C3: a blank (empty or whitespace-only) query with every filter at its
default returns exactly the full venue store, in insertion order. -/
theorem blank_default_returns_store (ε : Type) (store : List Venue)
    (idx : String → WhereClause → Except ε (List Hit)) (today : String) (now : Nat)
    (q : String) (hq : jsTrim q = "") :
    performSearch store idx true today now q initialFilters = store := by
  unfold performSearch
  simp [hq, hasFilters, initialFilters, optStrTruthy, optNatTruthy]

theorem blank_default_returns_store_witness :
    performSearch [vLo, vHi] failingIdx true "Sunday" 0 "   " initialFilters = [vLo, vHi] :=
  blank_default_returns_store Unit [vLo, vHi] failingIdx "Sunday" 0 "   " (by decide)

/-- C10: a `maxPrice` of 0 is falsy, so no price constraint is applied on
any path: the indexed where-clause, the filter-only scan and the fallback
scan all behave exactly as with `maxPrice` unset. -/
theorem maxPrice_zero_no_filtering (ε : Type) (store : List Venue)
    (idx : String → WhereClause → Except ε (List Hit)) (ready : Bool) (today : String)
    (now : Nat) (q : String) (f : Filters) :
    buildWhere (withMaxPrice f (some 0)) = buildWhere (withMaxPrice f none) ∧
    fallbackPath store today now q (withMaxPrice f (some 0)) =
      fallbackPath store today now q (withMaxPrice f none) ∧
    performSearch store idx ready today now q (withMaxPrice f (some 0)) =
      performSearch store idx ready today now q (withMaxPrice f none) := by
  exact ⟨rfl, rfl, rfl⟩

/-- C2: the engine never lets an indexed-search exception reach its caller:
for every index oracle (failing ones included) the result is a plain list —
the store before readiness or for a blank default request, the try-path
list, or, exactly when the indexed step raised, the linear-scan fallback
list. -/
theorem indexed_errors_never_propagate (ε : Type) (store : List Venue)
    (idx : String → WhereClause → Except ε (List Hit)) (ready : Bool) (today : String)
    (now : Nat) (q : String) (f : Filters) :
    performSearch store idx ready today now q f = store ∨
    (∃ l, tryPath store idx today now q f = Except.ok l ∧
      performSearch store idx ready today now q f = l) ∨
    (∃ e, tryPath store idx today now q f = Except.error e ∧
      performSearch store idx ready today now q f = fallbackPath store today now q f) := by
  unfold performSearch
  cases ready with
  | false => exact Or.inl rfl
  | true =>
    by_cases hb : (jsTrim q == "" && !hasFilters f) = true
    · left
      simp [hb]
    · cases htp : tryPath store idx today now q f with
      | ok l =>
        right; left
        exact ⟨l, rfl, by simp [hb, htp]⟩
      | error e =>
        right; right
        exact ⟨e, rfl, by simp [hb, htp]⟩

/-- Totality of the sort comparator's induced order. -/
theorem sortLeB_total (today : String) (now : Nat) (a b : Venue) :
    sortLeB today now a b = true ∨ sortLeB today now b a = true := by
  unfold sortLeB
  cases ha : isHappeningNow today now a <;> cases hb : isHappeningNow today now b <;>
    simp [ha, hb]
  · exact le_total b.rating a.rating
  · exact le_total b.rating a.rating

/-- Transitivity of the sort comparator's induced order. -/
theorem sortLeB_trans (today : String) (now : Nat) (a b c : Venue)
    (h1 : sortLeB today now a b = true) (h2 : sortLeB today now b c = true) :
    sortLeB today now a c = true := by
  unfold sortLeB at h1 h2 ⊢
  cases ha : isHappeningNow today now a <;> cases hb : isHappeningNow today now b <;>
    cases hc : isHappeningNow today now c <;> simp_all
  · exact le_trans h2 h1
  · exact le_trans h2 h1

instance (today : String) (now : Nat) :
    IsTotal Venue (fun a b => sortLeB today now a b = true) :=
  ⟨sortLeB_total today now⟩

instance (today : String) (now : Nat) :
    IsTrans Venue (fun a b => sortLeB today now a b = true) :=
  ⟨fun a b c => sortLeB_trans today now a b c⟩

/-- What a single comparator fact yields: a happening-now venue never
follows a non-happening one, and within equal happening-now status the
ratings are non-increasing. -/
theorem sortLeB_spec (today : String) (now : Nat) (a b : Venue)
    (h : sortLeB today now a b = true) :
    (isHappeningNow today now b = true → isHappeningNow today now a = true) ∧
    (isHappeningNow today now a = isHappeningNow today now b → b.rating ≤ a.rating) := by
  unfold sortLeB at h
  cases ha : isHappeningNow today now a <;> cases hb : isHappeningNow today now b <;> simp_all

/-- The sorted output of `sortVenues` is pairwise ordered by the
comparator. -/
theorem sortVenues_sorted (today : String) (now : Nat) (m : List Venue) :
    (sortVenues today now m).Pairwise (fun a b => sortLeB today now a b = true) :=
  List.sorted_insertionSort _ m

/-- Sorting permutes its input. -/
theorem sortVenues_perm (today : String) (now : Nat) (m : List Venue) :
    (sortVenues today now m).Perm m :=
  List.perm_insertionSort _ m

/-- Two filters over the same list commute. -/
theorem filter_swap (p q : Venue → Bool) (l : List Venue) :
    (l.filter p).filter q = (l.filter q).filter p := by
  simp only [List.filter_filter]
  congr 1
  funext a
  exact Bool.and_comm _ _

/-- The day filter and the price filter commute; the filter-only scan
applies maxPrice before day while the fallback scan applies day before
maxPrice. -/
theorem filterByDay_filterByMaxPrice_comm (f : Filters) (l : List Venue) :
    filterByDay f (filterByMaxPrice f l) = filterByMaxPrice f (filterByDay f l) := by
  unfold filterByDay filterByMaxPrice
  cases f.day with
  | none => rfl
  | some d =>
    cases f.maxPrice with
    | none => rfl
    | some p =>
      by_cases hd : (d == "") = true
      · simp [hd]
      · by_cases hp : (p == 0) = true
        · simp [hd, hp]
        · simp only [hd, hp, Bool.false_eq_true, if_false]
          exact filter_swap _ _ l

/-- C1 (amended): for a blank query the non-fallback path never consults the
index and returns exactly the sorted permutation of the fallback scan's
list, so filter-only requests agree between the two paths as multisets of
venues; their order can differ because the fallback omits the sort. -/
theorem fallback_filterOnly_sorted_eq (ε : Type) (store : List Venue)
    (idx : String → WhereClause → Except ε (List Hit)) (today : String) (now : Nat)
    (q : String) (f : Filters) (hq : jsTrim q = "") :
    tryPath store idx today now q f =
      Except.ok (sortVenues today now (fallbackPath store today now q f)) ∧
    (sortVenues today now (fallbackPath store today now q f)).Perm
      (fallbackPath store today now q f) := by
  have hqn : (jsTrim q != "") = false := by simp [hq]
  constructor
  · unfold tryPath fallbackPath structuredScan postFilters
    simp only [hqn, Bool.false_eq_true, if_false]
    rw [filterByDay_filterByMaxPrice_comm]
  · exact sortVenues_perm today now _

theorem fallback_filterOnly_sorted_eq_witness :
    tryPath [vLo, vHi] emptyIdx "Sunday" 0 "" dayOnlyFilters =
      Except.ok (sortVenues "Sunday" 0 (fallbackPath [vLo, vHi] "Sunday" 0 "" dayOnlyFilters)) :=
  (fallback_filterOnly_sorted_eq Unit [vLo, vHi] emptyIdx "Sunday" 0 "" dayOnlyFilters
    (by decide)).1

/-- C1 (counterexample): a filter-only request (blank query, day filter set)
on which the non-fallback path and the fallback scan return the same venues
in different orders, refuting "exactly the same ordered result list": the
fallback omits the sort of steps 2–6. -/
theorem fallback_order_differs :
    jsTrim "" = "" ∧ hasFilters dayOnlyFilters = true ∧
    tryPath [vLo, vHi] emptyIdx "Sunday" 0 "" dayOnlyFilters = Except.ok [vHi, vLo] ∧
    fallbackPath [vLo, vHi] "Sunday" 0 "" dayOnlyFilters = [vLo, vHi] ∧
    ([vHi, vLo] : List Venue) ≠ [vLo, vHi] :=
  ⟨by decide, by decide, by decide, by decide, by decide⟩

/-- Concrete venue for the sort contract: higher rating, not in its deal
window at Monday minute 1000. -/
def vA4 : Venue :=
  ⟨"a4", "Early Bird", "Downtown", "Bar", "4 Main St", "early specials",
   [], [], ["Monday"], "1:00 PM", "2:00 PM", 2, rat49⟩

/-- Concrete venue for the sort contract: lower rating, inside its deal
window at Monday minute 1000. -/
def vB4 : Venue :=
  ⟨"b4", "All Day", "Downtown", "Bar", "5 Main St", "all day specials",
   [], [], ["Monday"], "12:00 PM", "11:00 PM", 2, rat40⟩

/-- C4: every list the non-fallback path returns puts happening-now venues
before the rest and is non-increasing in rating within equal happening-now
status; concretely, a store holding a non-happening 4.9 venue before a
happening 4.0 venue comes back with the 4.0 venue first. -/
theorem nonFallback_sort_contract :
    (∀ (ε : Type) (store : List Venue) (idx : String → WhereClause → Except ε (List Hit))
      (today : String) (now : Nat) (q : String) (f : Filters) (l : List Venue),
      tryPath store idx today now q f = Except.ok l →
      ∀ i j : Fin l.length, i < j →
        (isHappeningNow today now (l.get j) = true → isHappeningNow today now (l.get i) = true) ∧
        (isHappeningNow today now (l.get i) = isHappeningNow today now (l.get j) →
          (l.get j).rating ≤ (l.get i).rating)) ∧
    performSearch [vA4, vB4] emptyIdx true "Monday" 1000 "" dayOnlyFilters = [vB4, vA4] := by
  constructor
  · intro ε store idx today now q f l htp i j hij
    have hl : ∃ m, l = sortVenues today now m := by
      unfold tryPath at htp
      by_cases hq : (jsTrim q != "") = true
      · rw [if_pos hq] at htp
        cases hidx : idx (jsTrim q) (buildWhere f) with
        | error e =>
          rw [hidx] at htp
          cases htp
        | ok hits =>
          rw [hidx] at htp
          exact ⟨_, (Except.ok.inj htp).symm⟩
      · rw [if_neg hq] at htp
        exact ⟨_, (Except.ok.inj htp).symm⟩
    obtain ⟨m, rfl⟩ := hl
    have hr := List.pairwise_iff_get.mp (sortVenues_sorted today now m) i j hij
    exact sortLeB_spec today now _ _ hr
  · decide

theorem nonFallback_sort_contract_witness :
    (isHappeningNow "Sunday" 0 vLo = true → isHappeningNow "Sunday" 0 vHi = true) ∧
    (isHappeningNow "Sunday" 0 vHi = isHappeningNow "Sunday" 0 vLo → vLo.rating ≤ vHi.rating) :=
  nonFallback_sort_contract.1 Unit [vLo, vHi] emptyIdx "Sunday" 0 "" dayOnlyFilters
    [vHi, vLo] (by decide) ⟨0, by decide⟩ ⟨1, by decide⟩ (by decide)
